import Mathlib

/-!
Shallow embedding of `Display_EPD_W21_spi.h`: pin-number constants, the six
GPIO control macros built on Arduino `digitalWrite` / `digitalRead`, and the
two declared SPI byte-transfer entry points (whose bodies are not part of the
header and are therefore modelled from the spec as event traces).

A pin state assigns to every GPIO number its current electrical level
(Arduino encodes LOW as 0 and HIGH as 1).
-/

namespace EPDSpi

/-- Arduino logic level LOW (value 0). -/
def LOW : Nat := 0

/-- Arduino logic level HIGH (value 1). -/
def HIGH : Nat := 1

/-- The electrical level of every GPIO pin, indexed by pin number. -/
abbrev PinState := Nat → Nat

/-- Arduino `digitalWrite(pin, val)`: set one pin's level, leave the rest. -/
def digitalWrite (pin val : Nat) (s : PinState) : PinState :=
  fun p => if p = pin then val else s p

/-- Arduino `digitalRead(pin)`: the current level of one pin. -/
def digitalRead (pin : Nat) (s : PinState) : Nat :=
  s pin

/-- `#define EPD_CS_PIN 7` — chip-select pin. -/
def EPD_CS_PIN : Nat := 7

/-- `#define EPD_DC_PIN 3` — data/command pin. -/
def EPD_DC_PIN : Nat := 3

/-- `#define EPD_RST_PIN 0` — reset pin. -/
def EPD_RST_PIN : Nat := 0

/-- `#define EPD_BUSY_PIN 1` — busy-sense pin. -/
def EPD_BUSY_PIN : Nat := 1

/-- `#define EPD_W21_CS_0 digitalWrite(EPD_CS_PIN, LOW)`. -/
def EPD_W21_CS_0 : PinState → PinState :=
  digitalWrite EPD_CS_PIN LOW

/-- `#define EPD_W21_CS_1 digitalWrite(EPD_CS_PIN, HIGH)`. -/
def EPD_W21_CS_1 : PinState → PinState :=
  digitalWrite EPD_CS_PIN HIGH

/-- `#define EPD_W21_DC_0 digitalWrite(EPD_DC_PIN, LOW)`. -/
def EPD_W21_DC_0 : PinState → PinState :=
  digitalWrite EPD_DC_PIN LOW

/-- `#define EPD_W21_DC_1 digitalWrite(EPD_DC_PIN, HIGH)`. -/
def EPD_W21_DC_1 : PinState → PinState :=
  digitalWrite EPD_DC_PIN HIGH

/-- `#define EPD_W21_RST_0 digitalWrite(EPD_RST_PIN, LOW)`. -/
def EPD_W21_RST_0 : PinState → PinState :=
  digitalWrite EPD_RST_PIN LOW

/-- `#define EPD_W21_RST_1 digitalWrite(EPD_RST_PIN, HIGH)`. -/
def EPD_W21_RST_1 : PinState → PinState :=
  digitalWrite EPD_RST_PIN HIGH

/-- `#define isEPD_W21_BUSY digitalRead(EPD_BUSY_PIN)`. -/
def isEPD_W21_BUSY (s : PinState) : Nat :=
  digitalRead EPD_BUSY_PIN s

/-- The six GPIO control operations of the header, as one enumeration. -/
inductive GpioOp
  | cs0
  | cs1
  | dc0
  | dc1
  | rst0
  | rst1
  | busyRead
  deriving DecidableEq

/-- The single pin each operation touches (written, or read for `busyRead`). -/
def targetPin : GpioOp → Nat
  | GpioOp.cs0 => EPD_CS_PIN
  | GpioOp.cs1 => EPD_CS_PIN
  | GpioOp.dc0 => EPD_DC_PIN
  | GpioOp.dc1 => EPD_DC_PIN
  | GpioOp.rst0 => EPD_RST_PIN
  | GpioOp.rst1 => EPD_RST_PIN
  | GpioOp.busyRead => EPD_BUSY_PIN

/-- Run one GPIO operation: the value it yields (`some` only for the
busy-read, which returns the raw level) and the resulting pin state. -/
def runOp : GpioOp → PinState → Option Nat × PinState
  | GpioOp.cs0, s => (none, EPD_W21_CS_0 s)
  | GpioOp.cs1, s => (none, EPD_W21_CS_1 s)
  | GpioOp.dc0, s => (none, EPD_W21_DC_0 s)
  | GpioOp.dc1, s => (none, EPD_W21_DC_1 s)
  | GpioOp.rst0, s => (none, EPD_W21_RST_0 s)
  | GpioOp.rst1, s => (none, EPD_W21_RST_1 s)
  | GpioOp.busyRead, s => (some (isEPD_W21_BUSY s), s)

/-- The pin state after running one GPIO operation. -/
def applyOp (op : GpioOp) (s : PinState) : PinState :=
  (runOp op s).2

/-- An observable hardware event of the byte-transfer functions. -/
inductive Event
  | gpioWrite (pin val : Nat)
  | spiTransfer (b : Fin 256)
  deriving DecidableEq

/-- Modelled from the spec: the body of `EPD_W21_WriteCMD` is not in the
header (only its prototype `void EPD_W21_WriteCMD(unsigned char command);`).
Per the spec it asserts chip-select, sets the data/command line to command
mode (low), shifts the byte out over SPI, then deasserts chip-select.
It returns no value; the result records the unit return and the event trace. -/
def EPD_W21_WriteCMD (command : Fin 256) : Unit × List Event :=
  ((), [Event.gpioWrite EPD_CS_PIN LOW,
        Event.gpioWrite EPD_DC_PIN LOW,
        Event.spiTransfer command,
        Event.gpioWrite EPD_CS_PIN HIGH])

/-- Modelled from the spec: the body of `EPD_W21_WriteDATA` is not in the
header (only its prototype `void EPD_W21_WriteDATA(unsigned char data);`).
Per the spec it asserts chip-select, sets the data/command line to data
mode (high), shifts the byte out over SPI, then deasserts chip-select.
It returns no value; the result records the unit return and the event trace. -/
def EPD_W21_WriteDATA (data : Fin 256) : Unit × List Event :=
  ((), [Event.gpioWrite EPD_CS_PIN LOW,
        Event.gpioWrite EPD_DC_PIN HIGH,
        Event.spiTransfer data,
        Event.gpioWrite EPD_CS_PIN HIGH])

/-- A concrete pin state used by witnesses: every pin at level 0. -/
def s0 : PinState := fun _ => 0

/- ==================== helper lemmas ==================== -/

theorem digitalWrite_self (pin val : Nat) (s : PinState) :
    digitalWrite pin val s pin = val := by
  simp [digitalWrite]

theorem digitalWrite_other (pin val q : Nat) (s : PinState) (h : q ≠ pin) :
    digitalWrite pin val s q = s q := by
  simp [digitalWrite, h]

theorem digitalWrite_idem (pin val : Nat) (s : PinState) :
    digitalWrite pin val (digitalWrite pin val s) = digitalWrite pin val s := by
  funext q
  by_cases h : q = pin <;> simp [digitalWrite, h]

theorem digitalWrite_comm (p q v w : Nat) (hpq : p ≠ q) (s : PinState) :
    digitalWrite p v (digitalWrite q w s)
      = digitalWrite q w (digitalWrite p v s) := by
  funext r
  by_cases hp : r = p <;> by_cases hq : r = q <;>
    simp_all [digitalWrite]

/- ==================== claim theorems ==================== -/

/-- C1: for each assert/deassert macro pair, the assert macro drives its
configured pin to LOW and the deassert macro drives the same pin to HIGH. -/
theorem claim_C1 (s : PinState) :
    EPD_W21_CS_0 s EPD_CS_PIN = LOW ∧ EPD_W21_CS_1 s EPD_CS_PIN = HIGH ∧
    EPD_W21_DC_0 s EPD_DC_PIN = LOW ∧ EPD_W21_DC_1 s EPD_DC_PIN = HIGH ∧
    EPD_W21_RST_0 s EPD_RST_PIN = LOW ∧ EPD_W21_RST_1 s EPD_RST_PIN = HIGH :=
  ⟨digitalWrite_self _ _ s, digitalWrite_self _ _ s,
   digitalWrite_self _ _ s, digitalWrite_self _ _ s,
   digitalWrite_self _ _ s, digitalWrite_self _ _ s⟩

/-- C2: the four pin-role constants have the fixed values
`EPD_CS_PIN = 7`, `EPD_DC_PIN = 3`, `EPD_RST_PIN = 0`, `EPD_BUSY_PIN = 1`. -/
theorem claim_C2 :
    EPD_CS_PIN = 7 ∧ EPD_DC_PIN = 3 ∧ EPD_RST_PIN = 0 ∧ EPD_BUSY_PIN = 1 :=
  ⟨rfl, rfl, rfl, rfl⟩

/-- C3: for every pin state the busy-read operation returns exactly the
current level of the busy pin and leaves every pin unchanged. -/
theorem claim_C3 (s : PinState) :
    runOp GpioOp.busyRead s = (some (s EPD_BUSY_PIN), s) :=
  rfl

/-- C4: each of the six GPIO operations leaves the level of every pin other
than that operation's single target pin unchanged. -/
theorem claim_C4 (op : GpioOp) (s : PinState) (q : Nat)
    (h : q ≠ targetPin op) : applyOp op s q = s q := by
  cases op <;> first
    | rfl
    | exact digitalWrite_other _ _ _ s h

/-- C4 witness: the reset pin is untouched by the chip-select assert. -/
theorem claim_C4_witness :
    (0 : Nat) ≠ targetPin GpioOp.cs0 ∧ applyOp GpioOp.cs0 s0 0 = s0 0 :=
  ⟨by decide, claim_C4 GpioOp.cs0 s0 0 (by decide)⟩

/-- C5: for every byte, `EPD_W21_WriteCMD` performs, in order: assert
chip-select (CS low), set the data/command line to command level (low),
shift the byte over SPI, deassert chip-select (CS high); `EPD_W21_WriteDATA`
performs the same with the data/command line at data level (high). -/
theorem claim_C5 (b : Fin 256) :
    (EPD_W21_WriteCMD b).2
      = [Event.gpioWrite EPD_CS_PIN LOW, Event.gpioWrite EPD_DC_PIN LOW,
         Event.spiTransfer b, Event.gpioWrite EPD_CS_PIN HIGH] ∧
    (EPD_W21_WriteDATA b).2
      = [Event.gpioWrite EPD_CS_PIN LOW, Event.gpioWrite EPD_DC_PIN HIGH,
         Event.spiTransfer b, Event.gpioWrite EPD_CS_PIN HIGH] :=
  ⟨rfl, rfl⟩

/-- C6: `EPD_W21_WriteCMD` and `EPD_W21_WriteDATA` are total over every
unsigned 8-bit value, their sole parameter, and return no value (the
returned component is always the unit value). -/
theorem claim_C6 (b : Fin 256) :
    (EPD_W21_WriteCMD b).1 = () ∧ (EPD_W21_WriteDATA b).1 = () :=
  ⟨rfl, rfl⟩

/-- C7: every GPIO operation is a total function on pin states yielding no
error value; the write operations yield no value at all and only the
busy-read yields a value, which is the raw level of the busy pin. -/
theorem claim_C7 (op : GpioOp) (s : PinState) :
    (runOp op s).1
      = if op = GpioOp.busyRead then some (s EPD_BUSY_PIN) else none := by
  cases op <;> rfl

/-- C8: the four pin constants are pairwise distinct, and no assert/deassert
macro ever changes the busy pin, which is only read. -/
theorem claim_C8 :
    ([EPD_CS_PIN, EPD_DC_PIN, EPD_RST_PIN, EPD_BUSY_PIN] : List Nat).Pairwise
      (fun a b => a ≠ b) ∧
    ∀ s : PinState,
      EPD_W21_CS_0 s EPD_BUSY_PIN = s EPD_BUSY_PIN ∧
      EPD_W21_CS_1 s EPD_BUSY_PIN = s EPD_BUSY_PIN ∧
      EPD_W21_DC_0 s EPD_BUSY_PIN = s EPD_BUSY_PIN ∧
      EPD_W21_DC_1 s EPD_BUSY_PIN = s EPD_BUSY_PIN ∧
      EPD_W21_RST_0 s EPD_BUSY_PIN = s EPD_BUSY_PIN ∧
      EPD_W21_RST_1 s EPD_BUSY_PIN = s EPD_BUSY_PIN :=
  ⟨by decide,
   fun s =>
    ⟨digitalWrite_other _ _ _ s (by decide), digitalWrite_other _ _ _ s (by decide),
     digitalWrite_other _ _ _ s (by decide), digitalWrite_other _ _ _ s (by decide),
     digitalWrite_other _ _ _ s (by decide), digitalWrite_other _ _ _ s (by decide)⟩⟩

/-- C9: every assert/deassert macro is idempotent: running it twice on any
pin state gives the same pin state as running it once. -/
theorem claim_C9 (s : PinState) :
    EPD_W21_CS_0 (EPD_W21_CS_0 s) = EPD_W21_CS_0 s ∧
    EPD_W21_CS_1 (EPD_W21_CS_1 s) = EPD_W21_CS_1 s ∧
    EPD_W21_DC_0 (EPD_W21_DC_0 s) = EPD_W21_DC_0 s ∧
    EPD_W21_DC_1 (EPD_W21_DC_1 s) = EPD_W21_DC_1 s ∧
    EPD_W21_RST_0 (EPD_W21_RST_0 s) = EPD_W21_RST_0 s ∧
    EPD_W21_RST_1 (EPD_W21_RST_1 s) = EPD_W21_RST_1 s :=
  ⟨digitalWrite_idem _ _ s, digitalWrite_idem _ _ s,
   digitalWrite_idem _ _ s, digitalWrite_idem _ _ s,
   digitalWrite_idem _ _ s, digitalWrite_idem _ _ s⟩

/-- C10: any two GPIO operations with different target pins commute: running
one then the other yields the same final pin state in either order. -/
theorem claim_C10 (op1 op2 : GpioOp) (h : targetPin op1 ≠ targetPin op2)
    (s : PinState) : applyOp op1 (applyOp op2 s) = applyOp op2 (applyOp op1 s) := by
  cases op1 <;> cases op2 <;> first
    | exact absurd rfl h
    | rfl
    | exact digitalWrite_comm _ _ _ _ (by decide) s

/-- C10 witness: chip-select assert and data/command deassert commute. -/
theorem claim_C10_witness :
    targetPin GpioOp.cs0 ≠ targetPin GpioOp.dc1 ∧
    applyOp GpioOp.cs0 (applyOp GpioOp.dc1 s0)
      = applyOp GpioOp.dc1 (applyOp GpioOp.cs0 s0) :=
  ⟨by decide, claim_C10 GpioOp.cs0 GpioOp.dc1 (by decide) s0⟩

end EPDSpi
